import Mathlib

/-!
Verification of the ZRTPCPP fragments: the Botan Skein-384 binding
(`zrtp/crypto/botan/skein384.cpp`) and the user-callback interface
(`src/libzrtpcpp/ZrtpUserCallback.h`), embedded shallowly in Lean.

Bytes are modelled as `Nat`; buffers as `List Nat`.  The external Botan
`HashFunction` object for "Skein-512(384)" is modelled by its absorbed byte
stream: `update` appends bytes, `final` applies the (otherwise arbitrary)
digest function to the absorbed stream, yields a 48-byte digest and resets
the object to its initial state — exactly Botan's streaming contract.  The
digest function itself is an external primitive, so the binding definitions
and the theorems are parametrised over it.

A `void*` context handle is `Option hashCtx`: `none` is a null pointer.
Functions that may dereference a null pointer return an `Outcome`, whose
`nullDeref` constructor marks the undefined behaviour; the source has no
error-returning branch at these entry points, and correspondingly `Outcome`
has no error constructor.
-/

namespace ZrtpVerify

/-- Modelled from the spec: `SHA384_DIGEST_SIZE` is declared in the header
`zrtp/crypto/skein384.h`, which is not among the shown sources; the spec fixes
the 384-bit-class digest, i.e. 48 bytes. -/
def SHA384_DIGEST_SIZE : Nat := 48

/-- A 48-byte digest, the output type of the Skein-512(384) primitive. -/
def Digest : Type := { l : List Nat // l.length = SHA384_DIGEST_SIZE }

instance : DecidableEq Digest := fun a b =>
  decidable_of_iff (a.val = b.val) Subtype.ext_iff.symm

/-- Model of a Botan `HashFunction` object created as "Skein-512(384)":
its observable state is the byte stream absorbed since creation/reset. -/
structure HashFunction where
  absorbed : List Nat
deriving DecidableEq, Repr

/-- `Botan::HashFunction::create("Skein-512(384)")`: a fresh object with an
empty absorbed stream. -/
def HashFunction.create : HashFunction := ⟨[]⟩

/-- `hash->update(data, dataLength)`: absorb the bytes. -/
def HashFunction.update (h : HashFunction) (data : List Nat) : HashFunction :=
  ⟨h.absorbed ++ data⟩

/-- `hash->clear()`: reset to the initial state. -/
def HashFunction.clear (_h : HashFunction) : HashFunction := ⟨[]⟩

/-- `hash->final(out)`: produce the digest of the absorbed stream (applying
the external digest function `H`) and reset the object, per Botan's contract. -/
def HashFunction.final (h : HashFunction) (H : List Nat → Digest) :
    Digest × HashFunction :=
  (H h.absorbed, ⟨[]⟩)

/-- `struct hashCtx { std::unique_ptr<Botan::HashFunction> hash; }`; the
`unique_ptr` may be null, hence `Option`. -/
structure hashCtx where
  hash : Option HashFunction
deriving DecidableEq, Repr

/-- `zrtp::RetainedSecArray` as the binding observes it: the bytes written
into its data buffer and its size field. -/
structure RetainedSecArray where
  dataBytes : List Nat
  sizeField : Nat
deriving DecidableEq, Repr

/-- Outcome of a binding call on a context handle: `ok` when the call
completes, `nullDeref` when the source dereferences a null pointer
(undefined behaviour).  There is no error constructor because the source
has no rejecting branch at these entry points. -/
inductive Outcome (α : Type) where
  | ok (val : α) : Outcome α
  | nullDeref : Outcome α
deriving DecidableEq, Repr

/-- Sequencing of outcomes: undefined behaviour propagates. -/
def Outcome.bind {α β : Type} : Outcome α → (α → Outcome β) → Outcome β
  | .ok a, f => f a
  | .nullDeref, _ => .nullDeref

/-- `void skein384(const uint8_t *data, uint64_t dataLength, uint8_t *digest)`:
one-shot hash of a single buffer. -/
def skein384 (H : List Nat → Digest) (data : List Nat) : Digest :=
  let hash := HashFunction.create
  let hash := hash.update data
  (hash.final H).1

/-- `void skein384(const std::vector<const uint8_t*>& data, const
std::vector<uint64_t>& dataLength, uint8_t *digest)`: one-shot hash of a
sequence of segments; the two parallel vectors (pointer, length) are modelled
as one list of byte lists. -/
def skein384Multi (H : List Nat → Digest) (segs : List (List Nat)) : Digest :=
  let hash := HashFunction.create
  let hash := segs.foldl HashFunction.update hash
  (hash.final H).1

/-- `void* createSkein384Context()`: allocates a `hashCtx` and fills its
`hash` member with a fresh Skein-512(384) object; never returns null. -/
def createSkein384Context : Option hashCtx :=
  some { hash := some HashFunction.create }

/-- `void* initializeSkein384Context(void* ctx)`: if the handle is non-null,
create the hash object when absent, otherwise clear it; return the handle
that was passed (a null handle is passed through without dereference). -/
def initializeSkein384Context (ctx : Option hashCtx) : Option hashCtx :=
  match ctx with
  | none => none
  | some hd =>
      match hd.hash with
      | none => some { hash := some HashFunction.create }
      | some hf => some { hash := some hf.clear }

/-- `void finalizeSkein384Context(void* ctx, zrtp::RetainedSecArray &
digestOut)`: dereferences `ctx` and the inner `hash` pointer unconditionally,
writes the digest into `digestOut.data()` and sets the size field to
`SHA384_DIGEST_SIZE`. -/
def finalizeSkein384Context (H : List Nat → Digest) (ctx : Option hashCtx)
    (_digestOut : RetainedSecArray) : Outcome (hashCtx × RetainedSecArray) :=
  match ctx with
  | none => .nullDeref
  | some hd =>
      match hd.hash with
      | none => .nullDeref
      | some hf =>
          let (d, hf2) := hf.final H
          .ok ({ hash := some hf2 },
               { dataBytes := d.val, sizeField := SHA384_DIGEST_SIZE })

/-- `void closeSkein384Context(void* ctx, zrtp::RetainedSecArray &
digestOut)`: the digest-producing block is guarded by `hd != nullptr`, but
the subsequent `hd->hash.reset()` is executed unconditionally, so a null
handle is still dereferenced after the guarded block leaves `digestOut`
untouched. -/
def closeSkein384Context (H : List Nat → Digest) (ctx : Option hashCtx)
    (_digestOut : RetainedSecArray) : Outcome RetainedSecArray :=
  match ctx with
  | none =>
      -- the `if (hd != nullptr)` block is skipped (digestOut untouched),
      -- then `hd->hash.reset()` dereferences the null `hd`
      .nullDeref
  | some hd =>
      match hd.hash with
      | none => .nullDeref   -- `hd->hash->final` dereferences a null unique_ptr
      | some hf =>
          let (d, _) := hf.final H
          .ok { dataBytes := d.val, sizeField := SHA384_DIGEST_SIZE }

/-- `void skein384Ctx(void* ctx, const uint8_t* data, uint64_t dataLength)`:
dereferences `ctx` and the inner `hash` pointer unconditionally, then updates. -/
def skein384Ctx (ctx : Option hashCtx) (data : List Nat) : Outcome hashCtx :=
  match ctx with
  | none => .nullDeref
  | some hd =>
      match hd.hash with
      | none => .nullDeref
      | some hf => .ok { hash := some (hf.update data) }

/-- `void skein384Ctx(void* ctx, const std::vector<const uint8_t*>& data,
const std::vector<uint64_t>& dataLength)`: multi-segment update overload.
The cast of `ctx` itself is harmless; `hd->hash->update(...)` sits INSIDE the
loop body, so the handle (and the inner pointer) is dereferenced only when
the segment vector is non-empty — with an empty vector the loop never runs
and the call completes, leaving the handle as it was. -/
def skein384CtxMulti (ctx : Option hashCtx) (segs : List (List Nat)) :
    Outcome (Option hashCtx) :=
  match ctx with
  | none =>
      match segs with
      | [] => .ok none          -- loop body never executes: no dereference
      | _ :: _ => .nullDeref    -- first iteration dereferences the null `hd`
  | some hd =>
      match hd.hash with
      | none =>
          match segs with
          | [] => .ok (some hd)
          | _ :: _ => .nullDeref  -- first iteration dereferences the null `hash`
      | some hf => .ok (some { hash := some (segs.foldl HashFunction.update hf) })

/-- C3: hashing two segments — via the multi-segment one-shot overload, or via
two successive `skein384Ctx` updates on a fresh context followed by
`finalizeSkein384Context` — yields the same digest as the single-buffer
`skein384` applied to the concatenation, for every digest primitive `H` and
all byte sequences `a`, `b`. -/
theorem skein384_incremental_eq_concat (H : List Nat → Digest)
    (a b : List Nat) (out : RetainedSecArray) :
    skein384Multi H [a, b] = skein384 H (a ++ b) ∧
    ((skein384Ctx createSkein384Context a).bind fun c1 =>
      (skein384Ctx (some c1) b).bind fun c2 =>
        finalizeSkein384Context H (some c2) out)
      = .ok ({ hash := some ⟨[]⟩ },
             { dataBytes := (skein384 H (a ++ b)).val,
               sizeField := SHA384_DIGEST_SIZE }) := by
  constructor
  · simp [skein384Multi, skein384, HashFunction.create, HashFunction.update,
      HashFunction.final]
  · simp [skein384Ctx, createSkein384Context, finalizeSkein384Context,
      Outcome.bind, skein384, HashFunction.create, HashFunction.update,
      HashFunction.final]

/-- A concrete stand-in digest primitive, used only to instantiate witnesses. -/
def constDigest : List Nat → Digest :=
  fun _ => ⟨List.replicate SHA384_DIGEST_SIZE 0, by simp⟩

/-- C2, counterexample: the claim that the multi-segment `skein384Ctx`
overload dereferences a null handle asserts a dereference for every input
with a null handle; at the concrete input of a null handle and an empty
segment vector the loop body never executes, the call completes and no
dereference occurs. -/
theorem skein384CtxMulti_null_empty_completes :
    skein384CtxMulti none [] = .ok none ∧
    skein384CtxMulti none [] ≠ .nullDeref := by
  exact ⟨rfl, by simp [skein384CtxMulti]⟩

/-- C2, amended: `finalizeSkein384Context` and the single-buffer `skein384Ctx`
dereference a null context handle unconditionally, and the multi-segment
overload dereferences it whenever the segment vector is non-empty (inside the
loop body); only with an empty vector does it complete, passing the null
handle through untouched.  None of the three has a rejecting/error branch
(`Outcome` has no error constructor because the source has no error path at
these entry points). -/
theorem finalize_update_deref_null_handle (H : List Nat → Digest)
    (d seg : List Nat) (segs : List (List Nat)) (out : RetainedSecArray) :
    finalizeSkein384Context H none out = .nullDeref ∧
    skein384Ctx none d = .nullDeref ∧
    skein384CtxMulti none (seg :: segs) = .nullDeref ∧
    skein384CtxMulti none [] = .ok none := by
  exact ⟨rfl, rfl, rfl, rfl⟩

/-- C4: on every non-null handle, `initializeSkein384Context` resets the
context to the initial hash state (creating the hash object when absent,
clearing it otherwise), so a subsequent update with `d` followed by
`finalizeSkein384Context` produces exactly the one-shot `skein384 H d`
digest — re-initialization restores a usable, empty context. -/
theorem initialize_resets_to_fresh (H : List Nat → Digest) (hd : hashCtx)
    (d : List Nat) (out : RetainedSecArray) :
    initializeSkein384Context (some hd) = some { hash := some ⟨[]⟩ } ∧
    ((initializeSkein384Context (some hd)).elim Outcome.nullDeref fun c1 =>
      (skein384Ctx (some c1) d).bind fun c2 =>
        finalizeSkein384Context H (some c2) out)
      = .ok ({ hash := some ⟨[]⟩ },
             { dataBytes := (skein384 H d).val,
               sizeField := SHA384_DIGEST_SIZE }) := by
  obtain ⟨h⟩ := hd
  cases h <;>
    simp [initializeSkein384Context, skein384Ctx, finalizeSkein384Context,
      Outcome.bind, skein384, HashFunction.create, HashFunction.update,
      HashFunction.clear, HashFunction.final]

/-- C5: every digest-producing operation of the binding yields a 384-bit
digest: the one-shot `skein384` digest has `SHA384_DIGEST_SIZE` (48) bytes,
and on a handle whose hash object is present, `finalizeSkein384Context` and
`closeSkein384Context` write a 48-byte digest and set the output array's
size field to `SHA384_DIGEST_SIZE`. -/
theorem skein384_digest_is_48_bytes (H : List Nat → Digest) (d : List Nat)
    (hd : hashCtx) (hf : HashFunction) (hhash : hd.hash = some hf)
    (out : RetainedSecArray) :
    (skein384 H d).val.length = SHA384_DIGEST_SIZE ∧
    finalizeSkein384Context H (some hd) out
      = .ok ({ hash := some ⟨[]⟩ },
             { dataBytes := (H hf.absorbed).val,
               sizeField := SHA384_DIGEST_SIZE }) ∧
    closeSkein384Context H (some hd) out
      = .ok { dataBytes := (H hf.absorbed).val,
              sizeField := SHA384_DIGEST_SIZE } ∧
    (H hf.absorbed).val.length = SHA384_DIGEST_SIZE := by
  refine ⟨(skein384 H d).property, ?_, ?_, (H hf.absorbed).property⟩ <;>
    simp [finalizeSkein384Context, closeSkein384Context, hhash,
      HashFunction.final]

/-- Witness for C5 at a concrete handle, digest primitive and input. -/
theorem skein384_digest_is_48_bytes_witness :
    (hashCtx.mk (some ⟨[1, 2]⟩)).hash = some ⟨[1, 2]⟩ ∧
    (skein384 constDigest [5]).val.length = SHA384_DIGEST_SIZE ∧
    finalizeSkein384Context constDigest (some ⟨some ⟨[1, 2]⟩⟩) ⟨[], 0⟩
      = .ok ({ hash := some ⟨[]⟩ },
             { dataBytes := (constDigest [1, 2]).val,
               sizeField := SHA384_DIGEST_SIZE }) ∧
    closeSkein384Context constDigest (some ⟨some ⟨[1, 2]⟩⟩) ⟨[], 0⟩
      = .ok { dataBytes := (constDigest [1, 2]).val,
              sizeField := SHA384_DIGEST_SIZE } ∧
    (constDigest [1, 2]).val.length = SHA384_DIGEST_SIZE := by
  have h := skein384_digest_is_48_bytes constDigest [5]
    (hashCtx.mk (some ⟨[1, 2]⟩)) ⟨[1, 2]⟩ rfl ⟨[], 0⟩
  exact ⟨rfl, h.1, h.2.1, h.2.2.1, h.2.2.2⟩

/-- C8: `closeSkein384Context` on a null handle is NOT null-safe: the
`hd != nullptr` guard skips the digest-writing block, but the subsequent
`hd->hash.reset()` still dereferences the null handle, so the call evaluates
to the null-dereference outcome instead of completing. -/
theorem close_null_handle_derefs (H : List Nat → Digest)
    (out : RetainedSecArray) :
    closeSkein384Context H none out = .nullDeref := rfl

/-- C9: `createSkein384Context` returns a non-null handle whose hash object
is already created, so update and finalize succeed on it immediately without
a prior `initializeSkein384Context`; and `initializeSkein384Context` passes a
null handle through untouched (returning `none` without dereferencing it) and
keeps a non-null handle non-null. -/
theorem create_ready_initialize_passthrough (H : List Nat → Digest)
    (d : List Nat) (out : RetainedSecArray) (hd : hashCtx) :
    createSkein384Context = some { hash := some HashFunction.create } ∧
    skein384Ctx createSkein384Context d = .ok { hash := some ⟨d⟩ } ∧
    ((skein384Ctx createSkein384Context d).bind fun c =>
      finalizeSkein384Context H (some c) out)
      = .ok ({ hash := some ⟨[]⟩ },
             { dataBytes := (skein384 H d).val,
               sizeField := SHA384_DIGEST_SIZE }) ∧
    initializeSkein384Context none = none ∧
    (initializeSkein384Context (some hd)).isSome = true := by
  refine ⟨rfl, ?_, ?_, rfl, ?_⟩
  · simp [skein384Ctx, createSkein384Context, HashFunction.create,
      HashFunction.update]
  · simp [skein384Ctx, createSkein384Context, finalizeSkein384Context,
      Outcome.bind, skein384, HashFunction.create, HashFunction.update,
      HashFunction.final]
  · obtain ⟨h⟩ := hd
    cases h <;> simp [initializeSkein384Context]

/-! ## The `ZrtpUserCallback` interface (`src/libzrtpcpp/ZrtpUserCallback.h`)

`ZrtpUserCallback` holds a non-owning pointer to an `ost::ZrtpQueue` and its
default control methods delegate to it.  `ZrtpQueue` itself is not among the
shown sources, so it is modelled from the spec as a call log plus the state
its two getters need.  A method call on the queue is recorded as a
`QueueCall`; byte-pointer arguments are modelled by the byte sequence they
point to. -/

/-- One invocation of an `ost::ZrtpQueue` method, with its arguments. -/
inductive QueueCall where
  | setEnableZrtp (onOff : Bool)
  | sasVerifiedCall
  | resetSASVerifiedCall
  | goClearOkCall
  | requestGoClearCall
  | setSigsSecretCall (data : List Nat)
  | setSrtpsSecretCall (data : List Nat)
  | setOtherSecretCall (data : List Nat) (length : Int)
  | getHelloHashCall
  | getSasDataCall
deriving DecidableEq, Repr

/-- Modelled from the spec: `ost::ZrtpQueue` (its header is not among the
shown sources; only its caller `ZrtpUserCallback` is).  Observable state:
whether ZRTP has been started, the hello-hash and SAS strings its getters
return once started, and the log of method calls received. -/
structure ZrtpQueue where
  started : Bool
  helloHashHex : String
  sasDataStr : String
  calls : List QueueCall
deriving DecidableEq, Repr

/-- Modelled from the spec: `ZrtpQueue::getHelloHash` returns the hello hash
as hex digits, or the string "0" when ZRTP has not yet been started. -/
def ZrtpQueue.getHelloHash (q : ZrtpQueue) : ZrtpQueue × String :=
  ({ q with calls := q.calls ++ [.getHelloHashCall] },
   if q.started then q.helloHashHex else "0")

/-- Modelled from the spec: `ZrtpQueue::getSasData` returns the SAS data
string, or the string "0" when ZRTP has not yet been started. -/
def ZrtpQueue.getSasData (q : ZrtpQueue) : ZrtpQueue × String :=
  ({ q with calls := q.calls ++ [.getSasDataCall] },
   if q.started then q.sasDataStr else "0")

/-- Record a (void-returning) queue method invocation. -/
def ZrtpQueue.recv (q : ZrtpQueue) (c : QueueCall) : ZrtpQueue :=
  { q with calls := q.calls ++ [c] }

/-- `class ZrtpUserCallback`: its only data member is the private
`ost::ZrtpQueue* zrtpQueue`; the pointed-to queue is held inline. -/
structure ZrtpUserCallback where
  zrtpQueue : ZrtpQueue
deriving DecidableEq, Repr

/-- `ZrtpUserCallback(ost::ZrtpQueue* queue) : zrtpQueue(queue) {}` -/
def ZrtpUserCallback.mkCallback (queue : ZrtpQueue) : ZrtpUserCallback :=
  { zrtpQueue := queue }

/-- `virtual void enableZrtp(bool onOff) { zrtpQueue->setEnableZrtp(onOff); }` -/
def ZrtpUserCallback.enableZrtp (cb : ZrtpUserCallback) (onOff : Bool) :
    ZrtpUserCallback :=
  { cb with zrtpQueue := cb.zrtpQueue.recv (.setEnableZrtp onOff) }

/-- `virtual void SASVerified() { zrtpQueue->SASVerified(); }` -/
def ZrtpUserCallback.SASVerified (cb : ZrtpUserCallback) : ZrtpUserCallback :=
  { cb with zrtpQueue := cb.zrtpQueue.recv .sasVerifiedCall }

/-- `virtual void resetSASVerified() { zrtpQueue->resetSASVerified(); }` -/
def ZrtpUserCallback.resetSASVerified (cb : ZrtpUserCallback) :
    ZrtpUserCallback :=
  { cb with zrtpQueue := cb.zrtpQueue.recv .resetSASVerifiedCall }

/-- `virtual void goClearOk() { zrtpQueue->goClearOk(); }` -/
def ZrtpUserCallback.goClearOk (cb : ZrtpUserCallback) : ZrtpUserCallback :=
  { cb with zrtpQueue := cb.zrtpQueue.recv .goClearOkCall }

/-- `virtual void requestGoClear() { zrtpQueue->requestGoClear(); }` -/
def ZrtpUserCallback.requestGoClear (cb : ZrtpUserCallback) :
    ZrtpUserCallback :=
  { cb with zrtpQueue := cb.zrtpQueue.recv .requestGoClearCall }

/-- `virtual void setSigsSecret(uint8* data) { zrtpQueue->setSigsSecret(data); }` -/
def ZrtpUserCallback.setSigsSecret (cb : ZrtpUserCallback) (data : List Nat) :
    ZrtpUserCallback :=
  { cb with zrtpQueue := cb.zrtpQueue.recv (.setSigsSecretCall data) }

/-- `virtual void setSrtpsSecret(uint8* data) { zrtpQueue->setSrtpsSecret(data); }` -/
def ZrtpUserCallback.setSrtpsSecret (cb : ZrtpUserCallback) (data : List Nat) :
    ZrtpUserCallback :=
  { cb with zrtpQueue := cb.zrtpQueue.recv (.setSrtpsSecretCall data) }

/-- `virtual void setOtherSecret(uint8* data, int32 length)
{ zrtpQueue->setOtherSecret(data, length); }` -/
def ZrtpUserCallback.setOtherSecret (cb : ZrtpUserCallback) (data : List Nat)
    (length : Int) : ZrtpUserCallback :=
  { cb with zrtpQueue := cb.zrtpQueue.recv (.setOtherSecretCall data length) }

/-- `virtual std::string getHelloHash() { zrtpQueue->getHelloHash(); }` — the
body invokes the queue method but contains NO return statement: control falls
off the end of a `std::string`-returning function, so no value is returned
(`none`). -/
def ZrtpUserCallback.getHelloHash (cb : ZrtpUserCallback) :
    ZrtpUserCallback × Option String :=
  let (q, _discarded) := cb.zrtpQueue.getHelloHash
  ({ cb with zrtpQueue := q }, none)

/-- `virtual std::string getSasData() { zrtpQueue->getSasData(); }` — likewise
no return statement: the queue's string is discarded and no value returned. -/
def ZrtpUserCallback.getSasData (cb : ZrtpUserCallback) :
    ZrtpUserCallback × Option String :=
  let (q, _discarded) := cb.zrtpQueue.getSasData
  ({ cb with zrtpQueue := q }, none)

/-- `virtual ~ZrtpUserCallback() {};` — the destructor body is empty: it acts
on nothing.  To let the claim about the pointer and the pointed-to queue be
stated, the world visible to the destructor is modelled explicitly. -/
structure CallbackWorld where
  queueAlive : Bool
  queue : ZrtpQueue
  queuePtrNull : Bool
deriving DecidableEq, Repr

/-- The destructor `~ZrtpUserCallback() {}`: an empty body, so the world is
returned unchanged. -/
def ZrtpUserCallback.destructor (w : CallbackWorld) : CallbackWorld := w

/-- Modelled from the spec: the go-clear handling of the ZRTP engine
(`ZrtpQueue`/state machine, not among the shown sources; only the callback
pass-throughs are).  Events seen by one endpoint. -/
inductive GoClearEvent where
  | sendGoClearRequest
  | recvGoClearRequest
  | userConfirmsGoClear
deriving DecidableEq, Repr

/-- Media-protection state of one endpoint. -/
structure MediaState where
  protecting : Bool
  goClearPending : Bool
deriving DecidableEq, Repr

/-- Modelled from the spec: "after requestGoClear(), the requester stops
protecting outbound media immediately; the responder continues protecting
media until confirmGoClear() is called". Sending the request switches this
side to clear at once; receiving a request only records it and asks the user;
the user's confirmation is what switches the receiving side to clear. -/
def goClearStep (s : MediaState) : GoClearEvent → MediaState
  | .sendGoClearRequest => { s with protecting := false }
  | .recvGoClearRequest => { s with goClearPending := true }
  | .userConfirmsGoClear =>
      if s.goClearPending then { protecting := false, goClearPending := false }
      else s

/-- Run a sequence of go-clear events. -/
def goClearRun (s : MediaState) (evs : List GoClearEvent) : MediaState :=
  evs.foldl goClearStep s

/-- C1: contrary to the spec, `ZrtpUserCallback::getHelloHash` and
`ZrtpUserCallback::getSasData` do NOT return the queue's string: each invokes
the corresponding `ZrtpQueue` method (whose value is "0" when ZRTP has not
been started) but has no return statement, so the value is discarded and the
call yields no return value (`none`). -/
theorem callback_getters_return_nothing (q : ZrtpQueue) :
    (ZrtpUserCallback.mkCallback q).getHelloHash
      = ({ zrtpQueue := { q with calls := q.calls ++ [.getHelloHashCall] } },
         none) ∧
    (ZrtpUserCallback.mkCallback q).getSasData
      = ({ zrtpQueue := { q with calls := q.calls ++ [.getSasDataCall] } },
         none) ∧
    (ZrtpQueue.mk false "1a2b" "sas" []).getHelloHash.2 = "0" ∧
    (ZrtpQueue.mk false "1a2b" "sas" []).getSasData.2 = "0" := by
  refine ⟨?_, ?_, rfl, rfl⟩ <;>
    simp [ZrtpUserCallback.mkCallback, ZrtpUserCallback.getHelloHash,
      ZrtpUserCallback.getSasData, ZrtpQueue.getHelloHash, ZrtpQueue.getSasData]

/-- C6: each default control method of `ZrtpUserCallback` is a pure
pass-through: the resulting callback state is exactly the old one with the
single corresponding `ZrtpQueue` call, carrying the method's own arguments
unchanged, appended to the queue — and nothing else. -/
theorem callback_control_pass_through (cb : ZrtpUserCallback) (onOff : Bool)
    (d1 d2 d3 : List Nat) (len : Int) :
    cb.enableZrtp onOff
      = { zrtpQueue := cb.zrtpQueue.recv (.setEnableZrtp onOff) } ∧
    cb.SASVerified = { zrtpQueue := cb.zrtpQueue.recv .sasVerifiedCall } ∧
    cb.resetSASVerified
      = { zrtpQueue := cb.zrtpQueue.recv .resetSASVerifiedCall } ∧
    cb.goClearOk = { zrtpQueue := cb.zrtpQueue.recv .goClearOkCall } ∧
    cb.requestGoClear
      = { zrtpQueue := cb.zrtpQueue.recv .requestGoClearCall } ∧
    cb.setSigsSecret d1
      = { zrtpQueue := cb.zrtpQueue.recv (.setSigsSecretCall d1) } ∧
    cb.setSrtpsSecret d2
      = { zrtpQueue := cb.zrtpQueue.recv (.setSrtpsSecretCall d2) } ∧
    cb.setOtherSecret d3 len
      = { zrtpQueue := cb.zrtpQueue.recv (.setOtherSecretCall d3 len) } :=
  ⟨rfl, rfl, rfl, rfl, rfl, rfl, rfl, rfl⟩

/-- C7: go-clear is asymmetric: sending a go-clear request stops this side's
media protection immediately, while a side that never issues the user's
confirmation (and no request of its own) keeps protecting through any events
it sees — in particular through received go-clear requests. -/
theorem go_clear_asymmetry :
    (∀ s : MediaState, (goClearStep s .sendGoClearRequest).protecting = false)
    ∧ (∀ (s : MediaState) (evs : List GoClearEvent),
        s.protecting = true →
        GoClearEvent.userConfirmsGoClear ∉ evs →
        GoClearEvent.sendGoClearRequest ∉ evs →
        (goClearRun s evs).protecting = true) := by
  constructor
  · intro s; rfl
  · intro s evs
    induction evs generalizing s with
    | nil => intro hs _ _; exact hs
    | cons ev rest ih =>
        intro hs hconf hsend
        have hev : ev = GoClearEvent.recvGoClearRequest := by
          cases ev
          · exact absurd (List.mem_cons_self _ _) hsend
          · rfl
          · exact absurd (List.mem_cons_self _ _) hconf
        subst hev
        exact ih { s with goClearPending := true } hs
          (fun h => hconf (List.mem_cons_of_mem _ h))
          (fun h => hsend (List.mem_cons_of_mem _ h))

/-- Witness for C7: a protecting endpoint that receives a go-clear request
but never confirms is still protecting. -/
theorem go_clear_asymmetry_witness :
    (goClearStep ⟨true, false⟩ .sendGoClearRequest).protecting = false ∧
    (MediaState.mk true false).protecting = true ∧
    GoClearEvent.userConfirmsGoClear ∉
      [GoClearEvent.recvGoClearRequest, GoClearEvent.recvGoClearRequest] ∧
    GoClearEvent.sendGoClearRequest ∉
      [GoClearEvent.recvGoClearRequest, GoClearEvent.recvGoClearRequest] ∧
    (goClearRun ⟨true, false⟩
      [.recvGoClearRequest, .recvGoClearRequest]).protecting = true :=
  ⟨go_clear_asymmetry.1 ⟨true, false⟩, rfl, by decide, by decide,
   go_clear_asymmetry.2 ⟨true, false⟩
     [.recvGoClearRequest, .recvGoClearRequest] rfl (by decide) (by decide)⟩

/-- C10: the `ZrtpUserCallback` destructor has an empty body: it leaves the
world unchanged — the referenced `ZrtpQueue` is neither deleted nor mutated,
and (despite the class comment) the `zrtpQueue` pointer is not set to NULL. -/
theorem destructor_touches_nothing (w : CallbackWorld) :
    ZrtpUserCallback.destructor w = w ∧
    (ZrtpUserCallback.destructor w).queueAlive = w.queueAlive ∧
    (ZrtpUserCallback.destructor w).queue = w.queue ∧
    (ZrtpUserCallback.destructor w).queuePtrNull = w.queuePtrNull :=
  ⟨rfl, rfl, rfl, rfl⟩

end ZrtpVerify
